import Mathlib

/-!
Shallow embedding of the SNAKE_GAME repository (src/snake_game.py,
src/camera_movement.py, src/main.py) and verification of its specification
claims.

Conventions of the embedding:
* Python integers become `ℤ`; `time.time()` timestamps become `ℚ`.
* The Python string directions "up"/"down"/"left"/"right" become the
  inductive type `Dir`; Python `None` becomes `Option.none`.
* The global mutable `direction` of snake_game.py and the globals
  `last_dir`/`last_time` of camera_movement.py are threaded explicitly
  as function arguments / state records.
* Partial Python operations that raise on an empty list
  (`coordinates[0]`, `coordinates[-1]`) are modelled by returning the
  state unchanged on `[]`; every claim below only touches non-empty
  snakes, so this convention is never load-bearing.
* Python's floor division `//` agrees with Lean's `ℤ` division on the
  non-negative operands used here (frame dimensions 320 × 240 and the
  positive literals of `randrange`).
-/

/-- `GAME_WIDTH` from snake_game.py line 18. -/
def GAME_WIDTH : ℤ := 600

/-- `GAME_HEIGHT` from snake_game.py line 18. -/
def GAME_HEIGHT : ℤ := 400

/-- `SPACE_SIZE` from snake_game.py line 20: size of each grid cell. -/
def SPACE_SIZE : ℤ := 20

/-- `BODY_PARTS` from snake_game.py line 21: initial snake length. -/
def BODY_PARTS : ℕ := 2

/-- The four movement directions, the values of the Python string
`direction` variable. -/
inductive Dir
  | up
  | down
  | left
  | right
  deriving DecidableEq, Repr

/-- The `opposites` dictionary of `change_direction` (snake_game.py line 91). -/
def opposites : Dir → Dir
  | .up => .down
  | .down => .up
  | .left => .right
  | .right => .left

/-- The movement-vector dictionary of `Snake.move` (snake_game.py lines 52-57). -/
def dirDelta : Dir → ℤ × ℤ
  | .up => (0, -SPACE_SIZE)
  | .down => (0, SPACE_SIZE)
  | .left => (-SPACE_SIZE, 0)
  | .right => (SPACE_SIZE, 0)

/-- The `Snake` class: an ordered head-first list of grid coordinates
(snake_game.py lines 36-67). -/
structure Snake where
  coordinates : List (ℤ × ℤ)
  deriving DecidableEq, Repr

/-- `Snake.__init__` (snake_game.py line 42): `BODY_PARTS` segments in a
straight line starting at (100, 100). -/
def Snake.init : Snake :=
  ⟨(List.range BODY_PARTS).map (fun i => (100 - (i : ℤ) * SPACE_SIZE, 100))⟩

/-- `Snake.move` (snake_game.py lines 44-61): insert a new head displaced by
`dirDelta` and pop the tail.  Python raises `IndexError` on an empty
coordinate list; the model returns the snake unchanged there. -/
def Snake.move (s : Snake) (direction : Dir) : Snake :=
  match s.coordinates with
  | [] => s
  | (x, y) :: rest =>
      ⟨((x + (dirDelta direction).1, y + (dirDelta direction).2)
          :: (x, y) :: rest).dropLast⟩

/-- `Snake.grow` (snake_game.py lines 63-67): append a duplicate of the last
segment.  Python raises on an empty list; the model returns the snake
unchanged there. -/
def Snake.grow (s : Snake) : Snake :=
  match s.coordinates.getLast? with
  | none => s
  | some t => ⟨s.coordinates ++ [t]⟩

/-- The `Food` class (snake_game.py lines 73-79): one grid coordinate. -/
structure Food where
  x : ℤ
  y : ℤ
  deriving DecidableEq, Repr

/-- Python's `random.randrange(start, stop, step)` for positive `step`:
the randomly chosen index is modelled as an arbitrary natural `k`, reduced
modulo the number `(stop - start + step - 1) // step` of values in the
range. -/
def randrange (start stop step : ℤ) (k : ℕ) : ℤ :=
  start + step * ((k % ((stop - start + step - 1) / step).toNat : ℕ) : ℤ)

/-- `Food.__init__` (snake_game.py lines 78-79): spawn at
`randrange(0, GAME_WIDTH, SPACE_SIZE)` × `randrange(0, GAME_HEIGHT,
SPACE_SIZE)`, with the two random draws supplied as `kx`, `ky`. -/
def Food.spawn (kx ky : ℕ) : Food :=
  ⟨randrange 0 GAME_WIDTH SPACE_SIZE kx, randrange 0 GAME_HEIGHT SPACE_SIZE ky⟩

/-- `change_direction` (snake_game.py lines 85-94): update the direction
unless the request is falsy (`none`) or the exact opposite of the current
direction. -/
def change_direction (direction : Dir) (new_dir : Option Dir) : Dir :=
  match new_dir with
  | none => direction
  | some nd => if opposites direction ≠ nd then nd else direction

/-- `check_collision` (snake_game.py lines 100-114): true when the head is
outside the board or occurs in `coordinates[1:]`.  Python raises on an empty
list; the model answers `false` there. -/
def check_collision (s : Snake) : Bool :=
  match s.coordinates with
  | [] => false
  | head :: body =>
      if head.1 < 0 ∨ head.1 ≥ GAME_WIDTH ∨ head.2 < 0 ∨ head.2 ≥ GAME_HEIGHT then
        true
      else if head ∈ body then
        true
      else
        false

/-- The state carried across one iteration of the inner play loop of
`run_game` (snake_game.py lines 205-252). -/
structure PlayState where
  direction : Dir
  snake : Snake
  food : Food
  deriving DecidableEq, Repr

/-- The keyboard-event loop of one tick (snake_game.py lines 207-217): each
KEYDOWN event contributes `keys.get(e.key)` (an `Option Dir`, `none` for a
non-arrow key) and `change_direction` is called on each in order. -/
def applyKeys (direction : Dir) (events : List (Option Dir)) : Dir :=
  events.foldl change_direction direction

/-- The optional camera override (snake_game.py lines 220-221):
`change_direction(direction_callback() or direction)`.  `cb` is `none` when
no callback was supplied, and `some r` with `r` the callback's return value
otherwise; `r or direction` is `r.getD direction`. -/
def applyCallback (direction : Dir) (cb : Option (Option Dir)) : Dir :=
  match cb with
  | none => direction
  | some r => change_direction direction (some (r.getD direction))

/-- The direction in force when `snake.move()` runs on a tick: keyboard
events first, then the optional callback override. -/
def tickDir (events : List (Option Dir)) (cb : Option (Option Dir))
    (st : PlayState) : Dir :=
  applyCallback (applyKeys st.direction events) cb

/-- Outcome of one tick of the play loop: either the `break` on collision
(snake_game.py lines 227-228), which ends the active round, or the
continuation state. -/
inductive TickResult
  | gameOver (s : PlayState)
  | next (s : PlayState)
  deriving DecidableEq, Repr

/-- Whether a tick ended the round. -/
def TickResult.isGameOver : TickResult → Bool
  | .gameOver _ => true
  | .next _ => false

/-- The play state carried out of a tick. -/
def TickResult.state : TickResult → PlayState
  | .gameOver s => s
  | .next s => s

/-- One iteration of the inner `while running` loop of `run_game`
(snake_game.py lines 205-233), rendering omitted: input handling, move,
collision `break`, food check with `grow` and respawn (`nf` is the freshly
spawned food). -/
def tick (events : List (Option Dir)) (cb : Option (Option Dir)) (nf : Food)
    (st : PlayState) : TickResult :=
  if check_collision (st.snake.move (tickDir events cb st)) then
    .gameOver ⟨tickDir events cb st, st.snake.move (tickDir events cb st), st.food⟩
  else if (st.snake.move (tickDir events cb st)).coordinates.head?
      = some (st.food.x, st.food.y) then
    .next ⟨tickDir events cb st,
           (st.snake.move (tickDir events cb st)).grow, nf⟩
  else
    .next ⟨tickDir events cb st, st.snake.move (tickDir events cb st), st.food⟩

/-- The `keys` dictionary of `run_game` (snake_game.py lines 211-216): arrow
keys map to a direction, any other key to `none` (`dict.get` default). -/
inductive Key
  | arrowUp
  | arrowDown
  | arrowLeft
  | arrowRight
  | other
  deriving DecidableEq, Repr

/-- `keys.get(e.key)` for a KEYDOWN event. -/
def keyDir : Key → Option Dir
  | .arrowUp => some .up
  | .arrowDown => some .down
  | .arrowLeft => some .left
  | .arrowRight => some .right
  | .other => none

/-- `DEBOUNCE` from camera_movement.py line 24: minimum time between
direction updates, in seconds. -/
def DEBOUNCE : ℚ := 3 / 10

/-- The detector globals `last_dir` / `last_time` of camera_movement.py
lines 22-23. -/
structure DetState where
  last_dir : Option Dir
  last_time : ℚ
  deriving DecidableEq, Repr

/-- The initial detector state: `last_dir = None`, `last_time = 0`. -/
def detInit : DetState := ⟨none, 0⟩

/-- The debounce block of `get_direction` (camera_movement.py lines 97-100):
`if new_dir and (now - last_time) > DEBOUNCE: last_dir = new_dir;
last_time = now`. -/
def debounceStep (st : DetState) (new_dir : Option Dir) (now : ℚ) : DetState :=
  match new_dir with
  | none => st
  | some d => if DEBOUNCE < now - st.last_time then ⟨some d, now⟩ else st

/-- The area threshold in `cv2.contourArea(cnt) > 300`
(camera_movement.py line 68). -/
def AREA_MIN : ℤ := 300

/-- The zone classification of `get_direction` (camera_movement.py lines
77-93): bands at `w // 4` and `h // 4` around the central dead zone,
horizontal tests first.  `w`, `h` are the frame dimensions, `(cx, cy)` the
bounding-box centre of the detected contour. -/
def classify (w h cx cy : ℤ) : Option Dir :=
  if cx < w / 4 then some .left
  else if w - w / 4 < cx then some .right
  else if cy < h / 4 then some .up
  else if h - h / 4 < cy then some .down
  else none

/-- What one call to `get_direction` observes from OpenCV: either
`cap.read()` failed (camera_movement.py lines 39-41), or a frame was
processed, summarised by the largest contour's area and bounding-box centre
(`none` when `contours` is empty), the current `time.time()`, and whether
the quit key was pressed (line 110). -/
inductive CamInput
  | noFrame
  | withFrame (contour : Option (ℤ × ℤ × ℤ)) (now : ℚ) (pressedQ : Bool)

/-- The direction detected on a frame (`new_dir`, camera_movement.py lines
61-93): `none` when there is no contour or the largest contour's area is not
above `AREA_MIN`, otherwise the zone classification of its centre on the
320 × 240 resized frame. -/
def newDirOf : Option (ℤ × ℤ × ℤ) → Option Dir
  | none => none
  | some (area, cx, cy) => if AREA_MIN < area then classify 320 240 cx cy else none

/-- `get_direction` (camera_movement.py lines 27-115), drawing omitted:
returns the updated detector state and the returned value.  On capture
failure it returns `none` with the state untouched; otherwise it runs the
debounce update and returns `last_dir`, except that the quit key makes it
return `none` (after the state update, which precedes the `waitKey` check
in the source). -/
def get_direction (st : DetState) : CamInput → DetState × Option Dir
  | .noFrame => (st, none)
  | .withFrame c now q =>
      (debounceStep st (newDirOf c) now,
       if q then none else (debounceStep st (newDirOf c) now).last_dir)

/-- Run `get_direction` over a sequence of frames, collecting the returned
values. -/
def camRun (st : DetState) : List CamInput → DetState × List (Option Dir)
  | [] => (st, [])
  | f :: fs =>
      ((camRun (get_direction st f).1 fs).1,
       (get_direction st f).2 :: (camRun (get_direction st f).1 fs).2)

/-- The acceptance condition of the debounce block on one frame: a direction
was detected and more than `DEBOUNCE` elapsed since `last_time`. -/
def accepts (st : DetState) (new_dir : Option Dir) (now : ℚ) : Bool :=
  new_dir.isSome && decide (DEBOUNCE < now - st.last_time)

/-- The timestamps at which the detector accepted a direction update, over a
sequence of frames. -/
def acceptedTimes (st : DetState) : List CamInput → List ℚ
  | [] => []
  | .noFrame :: fs => acceptedTimes st fs
  | .withFrame c now q :: fs =>
      if accepts st (newDirOf c) now then
        now :: acceptedTimes (get_direction st (.withFrame c now q)).1 fs
      else
        acceptedTimes (get_direction st (.withFrame c now q)).1 fs

/-- Moving never changes the number of segments: one head inserted, one
tail popped. -/
theorem Snake.move_length (s : Snake) (d : Dir) :
    (s.move d).coordinates.length = s.coordinates.length := by
  rcases s with ⟨coords⟩
  cases coords with
  | nil => rfl
  | cons p rest =>
      obtain ⟨x, y⟩ := p
      simp [Snake.move]

/-- Growing a non-empty snake adds exactly one segment. -/
theorem Snake.grow_length (s : Snake) (h : s.coordinates ≠ []) :
    (s.grow).coordinates.length = s.coordinates.length + 1 := by
  rcases s with ⟨coords⟩
  have hl : coords.getLast? = some (coords.getLast h) :=
    List.getLast?_eq_getLast coords h
  simp [Snake.grow, hl]

/-- Claim C1: `check_collision` returns true exactly when the head lies
outside the 600 × 400 board or occurs in the body excluding the head, and
one tick of the play loop ends the active round exactly when
`check_collision` holds of the moved snake. -/
theorem check_collision_iff_and_tick_exits
    (hd : ℤ × ℤ) (tl : List (ℤ × ℤ))
    (events : List (Option Dir)) (cb : Option (Option Dir)) (nf : Food)
    (st : PlayState) :
    (check_collision ⟨hd :: tl⟩ = true ↔
      (hd.1 < 0 ∨ hd.1 ≥ 600 ∨ hd.2 < 0 ∨ hd.2 ≥ 400 ∨ hd ∈ tl))
    ∧ (tick events cb nf st).isGameOver
        = check_collision (st.snake.move (tickDir events cb st)) := by
  constructor
  · simp only [check_collision, GAME_WIDTH, GAME_HEIGHT]
    split_ifs with h1 h2 <;> simp_all
    tauto
  · by_cases hcol : check_collision (st.snake.move (tickDir events cb st)) = true
    · simp [tick, hcol, TickResult.isGameOver]
    · simp only [Bool.not_eq_true] at hcol
      simp only [tick, hcol, if_false, Bool.false_eq_true]
      split_ifs <;> rfl

/-- Claim C2: for actual direction requests, `change_direction` rejects
exactly the opposite of the current direction and accepts everything else. -/
theorem change_direction_opposite_rule (d r : Dir) :
    change_direction d (some r) = if r = opposites d then d else r := by
  cases d <;> cases r <;> rfl

/-- Claim C3: one `move` prepends the head displaced by one grid cell in the
current direction and drops the last segment, preserving the length; in the
length-2 "right" scenario the coordinates become
`[[prev_head_x + 20, y], old_head]`. -/
theorem move_shifts_and_preserves_length (d : Dir) (p : ℤ × ℤ)
    (rest : List (ℤ × ℤ)) :
    ((Snake.mk (p :: rest)).move d).coordinates
        = (p.1 + (dirDelta d).1, p.2 + (dirDelta d).2) :: (p :: rest).dropLast
    ∧ ((Snake.mk (p :: rest)).move d).coordinates.length
        = (p :: rest).length
    ∧ ∀ q : ℤ × ℤ, ((Snake.mk [p, q]).move Dir.right).coordinates
        = [(p.1 + 20, p.2), p] := by
  obtain ⟨x, y⟩ := p
  refine ⟨by simp [Snake.move], by simp [Snake.move], ?_⟩
  intro q
  simp [Snake.move, dirDelta, SPACE_SIZE]

/-- Claim C9: a falsy request (`none`) leaves the direction unchanged, and a
non-arrow key maps to `none`, so pressing it never changes the direction. -/
theorem change_direction_none_and_non_arrow (d : Dir) :
    change_direction d none = d
    ∧ keyDir Key.other = none
    ∧ change_direction d (keyDir Key.other) = d :=
  ⟨rfl, rfl, rfl⟩

/-- Claim C10: every spawned food is grid-aligned (coordinates are multiples
of 20) and strictly inside the 600 × 400 play area. -/
theorem food_spawn_aligned_in_bounds (kx ky : ℕ) :
    (20 : ℤ) ∣ (Food.spawn kx ky).x ∧ (20 : ℤ) ∣ (Food.spawn kx ky).y
    ∧ 0 ≤ (Food.spawn kx ky).x ∧ (Food.spawn kx ky).x < 600
    ∧ 0 ≤ (Food.spawn kx ky).y ∧ (Food.spawn kx ky).y < 400 := by
  have hx : (Food.spawn kx ky).x = 20 * ((kx % 30 : ℕ) : ℤ) := by
    simp [Food.spawn, randrange, GAME_WIDTH, SPACE_SIZE]
  have hy : (Food.spawn kx ky).y = 20 * ((ky % 20 : ℕ) : ℤ) := by
    simp [Food.spawn, randrange, GAME_HEIGHT, SPACE_SIZE]
  have hxb : kx % 30 < 30 := Nat.mod_lt kx (by norm_num)
  have hyb : ky % 20 < 20 := Nat.mod_lt ky (by norm_num)
  refine ⟨hx ▸ dvd_mul_right 20 _, hy ▸ dvd_mul_right 20 _, ?_, ?_, ?_, ?_⟩ <;>
    simp only [hx, hy] <;> omega

/-- A play state in which the food lies under the snake's body (food
spawning performs no occupancy check) and the current direction drives the
head onto that cell. -/
def stBad : PlayState :=
  ⟨Dir.left,
   ⟨[(100, 100), (100, 120), (80, 120), (80, 100), (60, 100)]⟩,
   ⟨80, 100⟩⟩

/-- On the tick from `stBad` the moved head equals the food coordinate, yet
the round ends by self-collision before the food check runs, so the length
does not increase: the unconditional "head on food implies growth" reading
of claim C4 is false. -/
theorem no_growth_on_collision_tick :
    ((stBad.snake.move (tickDir [] none stBad)).coordinates.head?
        = some (stBad.food.x, stBad.food.y))
    ∧ ((tick [] none ⟨0, 0⟩ stBad).state).snake.coordinates.length
        ≠ stBad.snake.coordinates.length + 1 := by
  decide

/-- Claim C4 (amended): on a tick that does not end the round, the snake's
length increases by exactly one when the moved head equals the food
coordinate (`grow` appends one segment, called once), and is unchanged
otherwise; a tick that ends the round leaves the length unchanged. -/
theorem growth_iff_food_eaten
    (events : List (Option Dir)) (cb : Option (Option Dir)) (nf : Food)
    (st : PlayState) :
    (check_collision (st.snake.move (tickDir events cb st)) = false →
      (st.snake.move (tickDir events cb st)).coordinates.head?
          = some (st.food.x, st.food.y) →
      ((tick events cb nf st).state).snake.coordinates.length
          = st.snake.coordinates.length + 1)
    ∧ ((check_collision (st.snake.move (tickDir events cb st)) = true ∨
        (st.snake.move (tickDir events cb st)).coordinates.head?
          ≠ some (st.food.x, st.food.y)) →
      ((tick events cb nf st).state).snake.coordinates.length
          = st.snake.coordinates.length) := by
  constructor
  · intro hcol hfood
    have hne : (st.snake.move (tickDir events cb st)).coordinates ≠ [] := by
      intro h0
      rw [h0] at hfood
      simp at hfood
    simp [tick, hcol, hfood, TickResult.state]
    rw [Snake.grow_length _ hne, Snake.move_length]
  · intro h
    rcases h with hcol | hfood
    · simp [tick, hcol, TickResult.state, Snake.move_length]
    · by_cases hcol : check_collision (st.snake.move (tickDir events cb st)) = true
      · simp [tick, hcol, TickResult.state, Snake.move_length]
      · simp only [Bool.not_eq_true] at hcol
        simp [tick, hcol, hfood, TickResult.state, Snake.move_length]

/-- A plain food-eating state: the head is one cell left of the food and
the direction is right. -/
def stGood : PlayState :=
  ⟨Dir.right, ⟨[(100, 100), (80, 100)]⟩, ⟨120, 100⟩⟩

/-- Witness for the amended claim C4 at the concrete state `stGood`: the
tick eats the food and the length grows from 2 to 3. -/
theorem growth_iff_food_eaten_witness :
    ((tick [] none ⟨0, 0⟩ stGood).state).snake.coordinates.length
      = stGood.snake.coordinates.length + 1 :=
  (growth_iff_food_eaten [] none ⟨0, 0⟩ stGood).1 (by decide) (by decide)

/-- When the debounce condition fails, the detector state is untouched. -/
theorem debounceStep_not_accept (st : DetState) (nd : Option Dir) (now : ℚ)
    (h : accepts st nd now = false) : debounceStep st nd now = st := by
  cases nd with
  | none => rfl
  | some d =>
      simp [accepts] at h
      simp [debounceStep, h]

/-- When the debounce condition holds, `last_time` becomes `now`, and more
than `DEBOUNCE` elapsed since the previous `last_time`. -/
theorem debounceStep_accept (st : DetState) (nd : Option Dir) (now : ℚ)
    (h : accepts st nd now = true) :
    (debounceStep st nd now).last_time = now
    ∧ DEBOUNCE < now - st.last_time := by
  cases nd with
  | none => simp [accepts] at h
  | some d =>
      simp [accepts] at h
      exact ⟨by simp [debounceStep, h], h⟩

/-- Over any run, `last_time` followed by the accepted-update timestamps is
a chain in which each step exceeds `DEBOUNCE`. -/
theorem acceptedTimes_chain (fs : List CamInput) : ∀ st : DetState,
    List.Chain' (fun a b => DEBOUNCE < b - a)
      (st.last_time :: acceptedTimes st fs) := by
  induction fs with
  | nil =>
      intro st
      simp [acceptedTimes]
  | cons f fs ih =>
      intro st
      cases f with
      | noFrame => simpa [acceptedTimes] using ih st
      | withFrame c now q =>
          by_cases h : accepts st (newDirOf c) now = true
          · have ha := debounceStep_accept st (newDirOf c) now h
            have hexp : acceptedTimes st (CamInput.withFrame c now q :: fs)
                = now :: acceptedTimes (get_direction st (.withFrame c now q)).1 fs := by
              simp [acceptedTimes, h]
            rw [hexp, List.chain'_cons]
            refine ⟨ha.2, ?_⟩
            have hch := ih (get_direction st (.withFrame c now q)).1
            have hlt : (get_direction st (.withFrame c now q)).1.last_time = now := ha.1
            rwa [hlt] at hch
          · have hb : accepts st (newDirOf c) now = false := by
              simpa using h
            have hst : debounceStep st (newDirOf c) now = st :=
              debounceStep_not_accept st (newDirOf c) now hb
            have hexp : acceptedTimes st (CamInput.withFrame c now q :: fs)
                = acceptedTimes (get_direction st (.withFrame c now q)).1 fs := by
              simp [acceptedTimes, hb]
            rw [hexp]
            have hch := ih (get_direction st (.withFrame c now q)).1
            simp only [get_direction, hst] at hch ⊢
            exact hch

/-- Claim C5: `DEBOUNCE` is 0.3 seconds, and over every sequence of
`get_direction` calls, consecutive accepted direction updates are separated
by strictly more than `DEBOUNCE`: a detected direction is accepted only when
the elapsed time since the last accepted update exceeds `DEBOUNCE`. -/
theorem debounce_separates_updates :
    DEBOUNCE = 3 / 10
    ∧ ∀ (st : DetState) (fs : List CamInput),
        List.Chain' (fun a b => DEBOUNCE < b - a) (acceptedTimes st fs) :=
  ⟨rfl, fun st fs => (acceptedTimes_chain fs st).tail⟩

/-- A frame on which `get_direction` sees a contour whose centre lies
strictly inside the central dead zone of the 320 × 240 frame (between
`w / 4 = 80` and `w - w / 4 = 240` horizontally, between `h / 4 = 60` and
`h - h / 4 = 180` vertically) and the quit key is not pressed. -/
def deadZoneFrame : CamInput → Bool
  | .withFrame (some (_, cx, cy)) _ q =>
      !q && decide (320 / 4 < cx) && decide (cx < 320 - 320 / 4)
         && decide (240 / 4 < cy) && decide (cy < 240 - 240 / 4)
  | _ => false

/-- A centre strictly inside the dead zone classifies to no direction. -/
theorem classify_inside_none (cx cy : ℤ) (h1 : (320 : ℤ) / 4 < cx)
    (h2 : cx < 320 - 320 / 4) (h3 : (240 : ℤ) / 4 < cy)
    (h4 : cy < 240 - 240 / 4) :
    classify 320 240 cx cy = none := by
  unfold classify
  rw [if_neg (by omega), if_neg (by omega), if_neg (by omega),
      if_neg (by omega)]

/-- One dead-zone frame leaves the detector state unchanged and returns the
previously accepted direction. -/
theorem deadZoneFrame_step (st : DetState) (f : CamInput)
    (h : deadZoneFrame f = true) :
    get_direction st f = (st, st.last_dir) := by
  cases f with
  | noFrame => simp [deadZoneFrame] at h
  | withFrame c now q =>
      cases c with
      | none => simp [deadZoneFrame] at h
      | some t =>
          obtain ⟨a, cx, cy⟩ := t
          simp only [deadZoneFrame, Bool.and_eq_true, Bool.not_eq_true',
            decide_eq_true_eq] at h
          obtain ⟨⟨⟨⟨hq, h1⟩, h2⟩, h3⟩, h4⟩ := h
          have hnd : newDirOf (some (a, cx, cy)) = none := by
            simp [newDirOf, classify_inside_none cx cy h1 h2 h3 h4]
          simp [get_direction, hnd, debounceStep, hq]

/-- Claim C6: across any sequence of frames whose detected centre stays
strictly inside the dead zone, the direction reported by `get_direction`
never changes (every call returns the direction accepted before the
sequence began, `none` if none ever was). -/
theorem deadzone_reports_unchanged (st : DetState) :
    ∀ frames : List CamInput,
      (∀ f ∈ frames, deadZoneFrame f = true) →
      (camRun st frames).2 = List.replicate frames.length st.last_dir := by
  intro frames
  induction frames with
  | nil =>
      intro _
      simp [camRun]
  | cons f fs ih =>
      intro h
      have hf : get_direction st f = (st, st.last_dir) :=
        deadZoneFrame_step st f (h f (by simp))
      have hrest := ih (fun g hg => h g (List.mem_cons_of_mem f hg))
      simp only [camRun, hf, List.length_cons, List.replicate_succ]
      rw [hrest]

/-- Witness for claim C6: one in-dead-zone frame reports the previously
accepted direction unchanged. -/
theorem deadzone_reports_unchanged_witness :
    (camRun ⟨some Dir.left, 0⟩
        [CamInput.withFrame (some (500, 100, 100)) 1 false]).2
      = List.replicate 1 (some Dir.left) :=
  deadzone_reports_unchanged ⟨some Dir.left, 0⟩
    [CamInput.withFrame (some (500, 100, 100)) 1 false] (by decide)

/-- Claim C7: a centre simultaneously beyond a horizontal band and beyond a
vertical band is classified by horizontal priority: the result is the
horizontal direction, left when `cx < w / 4`, right otherwise. -/
theorem horizontal_priority (w h cx cy : ℤ)
    (hx : cx < w / 4 ∨ w - w / 4 < cx) (_hy : cy < h / 4 ∨ h - h / 4 < cy) :
    classify w h cx cy = some (if cx < w / 4 then Dir.left else Dir.right) := by
  unfold classify
  by_cases hL : cx < w / 4
  · rw [if_pos hL, if_pos hL]
  · rcases hx with hx | hx
    · exact absurd hx hL
    · rw [if_neg hL, if_pos hx, if_neg hL]

/-- Witness for claim C7: a centre beyond both the left band and the top
band of the 320 × 240 frame classifies as left, not up. -/
theorem horizontal_priority_witness :
    classify 320 240 10 10 = some Dir.left := by
  have h := horizontal_priority 320 240 10 10 (Or.inl (by decide))
    (Or.inl (by decide))
  rwa [if_pos (by decide)] at h

/-- A detection summary on which `get_direction` ignores the frame: no
contour at all, or a largest contour whose area is below the fixed
threshold 300. -/
def smallDetection : Option (ℤ × ℤ × ℤ) → Bool
  | none => true
  | some (a, _, _) => decide (a < 300)

/-- Claim C8: on a captured frame without quit, if no contour is found or
the largest contour's area is below 300, the detector state is not updated
and the previously accepted direction is returned (`none` if no direction
was ever accepted). -/
theorem no_detection_retains_direction (st : DetState)
    (c : Option (ℤ × ℤ × ℤ)) (now : ℚ)
    (h : smallDetection c = true) :
    get_direction st (.withFrame c now false) = (st, st.last_dir) := by
  have hnd : newDirOf c = none := by
    cases c with
    | none => rfl
    | some t =>
        obtain ⟨a, cx, cy⟩ := t
        simp [smallDetection] at h
        simp only [newDirOf, AREA_MIN]
        rw [if_neg (by omega)]
  simp [get_direction, hnd, debounceStep]

/-- Witness for claim C8: a contourless frame returns the stored direction
with the state untouched. -/
theorem no_detection_retains_direction_witness :
    get_direction ⟨some Dir.up, 2⟩ (CamInput.withFrame none 5 false)
      = (⟨some Dir.up, 2⟩, some Dir.up) :=
  no_detection_retains_direction ⟨some Dir.up, 2⟩ none 5 (by decide)
